import Mathlib

/-!
Verification of the ARV B2B sales dashboard (`src/app.py`) against its
natural-language specification.

The development embeds the data-shaping pipeline of the application:

* the raw workbook is a `Df`, an association list from column names to
  lists of `Cell`s, mirroring a pandas `DataFrame` of `object` columns;
* `load_data` mirrors `load_data` in `app.py` line by line: `rename`,
  `pd.to_datetime` on the two date columns (default `errors="raise"`),
  `pd.to_numeric(..., errors="coerce")` on the value column, and the
  three derived columns `ano`, `mes`, `ano_mes`;
* the canonical typed dataset is a `List Sale`; `df_filtrado`,
  `total_vendas`, `ticket_medio`, `ciclo_medio` and the four grouped
  tables mirror the corresponding expressions of the app;
* `renderCycle` threads an explicit store of dataframe cells to model
  the `.copy()` at line 91 and the in-place column assignment at
  line 102.
-/

/-- A calendar date, as carried by a pandas `Timestamp` (time-of-day is
not used by the application). -/
structure Date where
  year : Int
  month : Nat
  day : Nat
deriving DecidableEq, Repr

/-- Days since the civil epoch 1970-01-01 (the standard civil-calendar
day-count algorithm); models the day component of `Timestamp`
subtraction. -/
def Date.toDays (dt : Date) : Int :=
  let y : Int := dt.year - (if dt.month ≤ 2 then 1 else 0)
  let m : Int := (dt.month : Int)
  let d : Int := (dt.day : Int)
  let era : Int := Int.fdiv y 400
  let yoe : Int := y - era * 400
  let doy : Int := Int.fdiv (153 * (m + (if m > 2 then -3 else 9)) + 2) 5 + d - 1
  let doe : Int := yoe * 365 + Int.fdiv yoe 4 - Int.fdiv yoe 100 + doy
  era * 146097 + doe - 719468

/-- Civil date from days since 1970-01-01 (inverse of `Date.toDays`);
used to model pandas converting a raw number in a date column to an
epoch-based `Timestamp`. -/
def civilFromDays (z0 : Int) : Date :=
  let z := z0 + 719468
  let era := Int.fdiv z 146097
  let doe : Int := z - era * 146097
  let yoe := Int.fdiv (doe - Int.fdiv doe 1460 + Int.fdiv doe 36524 - Int.fdiv doe 146096) 365
  let doy := doe - (365 * yoe + Int.fdiv yoe 4 - Int.fdiv yoe 100)
  let mp := Int.fdiv (5 * doy + 2) 153
  let d := doy - Int.fdiv (153 * mp + 2) 5 + 1
  let m := if mp < 10 then mp + 3 else mp - 9
  { year := yoe + era * 400 + (if m ≤ 2 then 1 else 0),
    month := m.toNat, day := d.toNat }

/-- One spreadsheet cell as read by `pd.read_excel` into an `object`
column: a parsed date, a number, a raw string, or an empty cell
(pandas `NaN`). -/
inductive Cell where
  | date (d : Date)
  | num (q : Rat)
  | str (s : String)
  | empty
deriving DecidableEq, Repr

/-- A dataframe: an association list from column names to cell columns,
in column order. -/
abbrev Df := List (String × List Cell)

/-- Column lookup, `df[name]`; `none` models the `KeyError` pandas
raises on a missing column. -/
def getCol (df : Df) (name : String) : Option (List Cell) :=
  match df with
  | [] => none
  | (m, cs) :: rest => if m == name then some cs else getCol rest name

/-- Column assignment, `df[name] = cells`: replaces an existing column
in place, or appends a new column at the end. -/
def setCol (df : Df) (name : String) (cells : List Cell) : Df :=
  match df with
  | [] => [(name, cells)]
  | (m, cs) :: rest =>
    if m == name then (name, cells) :: rest else (m, cs) :: setCol rest name cells

/-- The nine-entry rename mapping of `app.py` lines 17-27; names not in
the mapping pass through (as `DataFrame.rename` does). -/
def renameMap (s : String) : String :=
  if s == "Data da Venda" then "data_venda"
  else if s == "Data de Emissão da NF" then "data_nf"
  else if s == "Cliente" then "cliente"
  else if s == "Vendedor Responsável" then "vendedor"
  else if s == "Tipo de Solução" then "tipo_solucao"
  else if s == "Descrição do Projeto" then "descricao_projeto"
  else if s == "Valor da Venda (R$)" then "valor_venda"
  else if s == "OS." then "os"
  else if s == "Proposta" then "proposta"
  else s

/-- `df.rename(columns={...})`: renames the columns that are present
and never fails on absent ones. -/
def renameDf (df : Df) : Df :=
  df.map (fun p => (renameMap p.1, p.2))

/-- Fixed-width zero padding of a natural number. -/
def padNat (w n : Nat) : String :=
  let s := toString n
  if s.length < w then String.mk (List.replicate (w - s.length) '0') ++ s else s

/-- The string form of a pandas monthly `Period`: zero-padded
four-digit year, dash, zero-padded two-digit month. -/
def periodFmt (y : Int) (m : Nat) : String :=
  (if y < 0 then "-" ++ padNat 4 y.natAbs else padNat 4 y.toNat) ++ "-" ++ padNat 2 m

/-- `Series.dt.to_period("M").astype(str)` on one entry: a present date
formats as `YYYY-MM`; a missing date stringifies to the literal
`"NaT"` (a non-missing string). -/
def periodMStr : Option Date → String
  | none => "NaT"
  | some d => periodFmt d.year d.month

/-- `Series.dt.year` on one entry (`NaN` on `NaT`). -/
def dtYear (o : Option Date) : Option Int := o.map Date.year

/-- `Series.dt.month` on one entry (`NaN` on `NaT`). -/
def dtMonth (o : Option Date) : Option Nat := o.map Date.month

/-- Re-encode an optional date as a stored cell. -/
def dateCell : Option Date → Cell
  | some d => .date d
  | none => .empty

/-- Re-encode an optional numeric value as a stored cell. -/
def numCell : Option Rat → Cell
  | some q => .num q
  | none => .empty

/-- Re-encode an optional integer (a float column with `NaN`) as a
stored cell. -/
def intCell : Option Int → Cell
  | some n => .num (n : Rat)
  | none => .empty

/-- Re-encode an optional natural number as a stored cell. -/
def natCell : Option Nat → Cell
  | some n => .num (n : Rat)
  | none => .empty

/-- One decimal digit of a character, if any. -/
def charDigit (c : Char) : Option Nat :=
  if c.isDigit then some (c.toNat - 48) else none

/-- Accumulating decimal parse of a character list. -/
def digitsAux : List Char → Nat → Option Nat
  | [], acc => some acc
  | c :: rest, acc =>
    match charDigit c with
    | some d => digitsAux rest (acc * 10 + d)
    | none => none

/-- Decimal parse of a non-empty all-digit character list. -/
def parseNatChars : List Char → Option Nat
  | [] => none
  | cs => digitsAux cs 0

/-- Decimal integer parse with an optional leading minus sign. -/
def parseIntChars : List Char → Option Int
  | [] => none
  | c :: rest =>
    if c = '-' then (parseNatChars rest).map (fun n => -(n : Int))
    else (parseNatChars (c :: rest)).map (fun n => (n : Int))

/-- Splitting of a character list on dashes. -/
def splitDashAux : List Char → List Char → List (List Char)
  | [], acc => [acc.reverse]
  | c :: rest, acc =>
    if c = '-' then acc.reverse :: splitDashAux rest []
    else splitDashAux rest (c :: acc)

/-- Parsing of a date string in ISO `YYYY-MM-DD` form; any string not
of this shape is unparseable. -/
def parseDate (s : String) : Option Date :=
  match splitDashAux s.toList [] with
  | [y, m, d] =>
    match parseNatChars y, parseNatChars m, parseNatChars d with
    | some yn, some mn, some dn =>
      if 1 ≤ mn ∧ mn ≤ 12 ∧ 1 ≤ dn ∧ dn ≤ 31 then
        some { year := (yn : Int), month := mn, day := dn }
      else none
    | _, _, _ => none
  | _ => none

/-- Nanoseconds per day, the unit `pd.to_datetime` applies to raw
numbers. -/
def nsPerDay : Rat := 86400000000000

/-- `pd.to_datetime` on one cell with the default `errors="raise"`:
dates pass through, empty cells become `NaT` (missing), raw numbers are
interpreted on the nanosecond epoch scale, and a string that does not
parse as a date raises (returned as `.error` carrying the string). -/
def toDatetimeCell : Cell → Except String (Option Date)
  | .date d => .ok (some d)
  | .empty => .ok none
  | .num q => .ok (some (civilFromDays (Rat.floor (q / nsPerDay))))
  | .str s =>
    match parseDate s with
    | some d => .ok (some d)
    | none => .error s

/-- `pd.to_datetime` on a whole column: the first unparseable cell
aborts with an error, otherwise all cells are converted. -/
def to_datetime : List Cell → Except String (List (Option Date))
  | [] => .ok []
  | c :: rest =>
    match toDatetimeCell c, to_datetime rest with
    | .error s, _ => .error s
    | .ok _, .error s => .error s
    | .ok d, .ok ds => .ok (d :: ds)

/-- `pd.to_numeric(..., errors="coerce")` on one cell: numbers pass
through, numeric strings parse, everything else becomes missing —
never an error. -/
def toNumericCell : Cell → Option Rat
  | .num q => some q
  | .str s => (parseIntChars s.toList).map (fun n => (n : Rat))
  | .date _ => none
  | .empty => none

/-- `pd.to_numeric(..., errors="coerce")` on a whole column. -/
def to_numeric_coerce (cells : List Cell) : List (Option Rat) :=
  cells.map toNumericCell

/-- The two failure modes of `load_data`: a missing column (pandas
`KeyError`, the schema-level failure) or an unparseable date cell
(pandas date-parse error, carrying the offending string). -/
inductive LoadError where
  | keyError (col : String)
  | dateParseError (col : String) (s : String)
deriving DecidableEq, Repr

/-- `load_data` of `app.py` lines 12-41, statement by statement:
rename; `df["data_venda"] = pd.to_datetime(df["data_venda"])`;
`df["data_nf"] = pd.to_datetime(df["data_nf"])`;
`df["valor_venda"] = pd.to_numeric(df["valor_venda"], errors="coerce")`;
then the derived columns `ano`, `mes`, `ano_mes` computed from the
parsed `data_venda` column. Each subscript read of an absent column is
a `KeyError`; each date conversion propagates the parse error of
`pd.to_datetime`. -/
def load_data (df0 : Df) : Except LoadError Df :=
  let df1 := renameDf df0
  match getCol df1 "data_venda" with
  | none => .error (.keyError "data_venda")
  | some dvCells =>
    match to_datetime dvCells with
    | .error s => .error (.dateParseError "data_venda" s)
    | .ok dv =>
      let df2 := setCol df1 "data_venda" (dv.map dateCell)
      match getCol df2 "data_nf" with
      | none => .error (.keyError "data_nf")
      | some nfCells =>
        match to_datetime nfCells with
        | .error s => .error (.dateParseError "data_nf" s)
        | .ok nf =>
          let df3 := setCol df2 "data_nf" (nf.map dateCell)
          match getCol df3 "valor_venda" with
          | none => .error (.keyError "valor_venda")
          | some vvCells =>
            let df4 := setCol df3 "valor_venda" ((to_numeric_coerce vvCells).map numCell)
            let df5 := setCol df4 "ano" (dv.map (fun o => intCell (dtYear o)))
            let df6 := setCol df5 "mes" (dv.map (fun o => natCell (dtMonth o)))
            let df7 := setCol df6 "ano_mes" (dv.map (fun o => Cell.str (periodMStr o)))
            .ok df7

/-- One row of the canonical typed dataset after `load_data`: the nine
renamed source fields plus the three derived columns. Missing values
(`NaN`/`NaT`) are `none`; `ano_mes` is a plain string column because
`astype(str)` is total. -/
structure Sale where
  data_venda : Option Date
  data_nf : Option Date
  cliente : Option String
  vendedor : Option String
  tipo_solucao : Option String
  descricao_projeto : Option String
  valor_venda : Option Rat
  os : Option String
  proposta : Option String
  ano : Option Int
  mes : Option Nat
  ano_mes : String
deriving DecidableEq, Repr

/-- `Series.isin(sel)` for one entry of a column whose selectable
values are non-missing (the app builds every selection list from
`dropna().unique()`): a missing entry matches nothing. -/
def optIsin {α : Type} [BEq α] (v : Option α) (sel : List α) : Bool :=
  match v with
  | none => false
  | some x => sel.contains x

/-- The filter of `app.py` lines 86-91: conjunction of the four
`isin` masks over `ano`, `vendedor`, `tipo_solucao`, `cliente`,
followed by `.copy()` (the copy is modelled explicitly in
`renderCycle`). -/
def df_filtrado (df : List Sale) (anoSel : List Int)
    (vendSel tipoSel cliSel : List String) : List Sale :=
  df.filter (fun r =>
    optIsin r.ano anoSel && optIsin r.vendedor vendSel &&
    optIsin r.tipo_solucao tipoSel && optIsin r.cliente cliSel)

/-- `df_filtrado["valor_venda"].sum()`: pandas `sum` skips missing
values, so each row contributes `valor_venda` or `0`. -/
def total_vendas (sub : List Sale) : Rat :=
  (sub.map (fun r => (r.valor_venda).getD 0)).sum

/-- `df_filtrado.shape[0]`. -/
def qtd_vendas (sub : List Sale) : Nat := sub.length

/-- `total_vendas / qtd_vendas if qtd_vendas > 0 else 0`
(line 99). -/
def ticket_medio (sub : List Sale) : Rat :=
  if qtd_vendas sub > 0 then total_vendas sub / (qtd_vendas sub : Rat) else 0

/-- `(df["data_nf"] - df["data_venda"]).dt.days` for one row: the
signed day difference when both dates are present, missing
otherwise. -/
def lead_time_dias (r : Sale) : Option Int :=
  match r.data_nf, r.data_venda with
  | some nf, some dv => some (nf.toDays - dv.toDays)
  | _, _ => none

/-- `df_filtrado["lead_time_dias"].mean()` (line 103): pandas `mean`
skips missing entries and is `NaN` (here `none`) when no entry is
present. -/
def ciclo_medio (sub : List Sale) : Option Rat :=
  let xs := (sub.map lead_time_dias).filterMap id
  if xs.length = 0 then none
  else some (((xs.map (fun n => (n : Rat))).sum) / (xs.length : Rat))

/-- Insertion step of a simple insertion sort. -/
def insertBy {α : Type} (le : α → α → Bool) (a : α) : List α → List α
  | [] => [a]
  | b :: l => if le a b then a :: b :: l else b :: insertBy le a l

/-- Insertion sort by a boolean comparison; models the order produced
by the sorting calls of the app (`sorted`, `groupby(sort=True)`,
`sort_values`). -/
def sortBy {α : Type} (le : α → α → Bool) : List α → List α
  | [] => []
  | a :: l => insertBy le a (sortBy le l)

/-- First-occurrence deduplication, as pandas `unique` performs. -/
def uniqAux {α : Type} [DecidableEq α] (seen : List α) : List α → List α
  | [] => []
  | a :: l => if a ∈ seen then uniqAux seen l else a :: uniqAux (a :: seen) l

/-- `Series.unique()` on a list of values. -/
def uniqueList {α : Type} [DecidableEq α] (l : List α) : List α := uniqAux [] l

/-- String comparison used by `sorted` and `groupby` on string keys. -/
def strLe (a b : String) : Bool := (compare a b).isLE

/-- `df.groupby(key, as_index=False)["valor_venda"].sum()`: one row per
distinct key, keys sorted ascending (`sort=True` default), each with
the sum of `valor_venda` over its rows; rows whose key is missing are
dropped (`dropna=True` default). -/
def groupbySum (key : Sale → Option String) (sub : List Sale) : List (String × Rat) :=
  (sortBy strLe (uniqueList (sub.filterMap key))).map
    (fun k => (k, total_vendas (sub.filter (fun r => key r == some k))))

/-- Descending comparison on the summed value, for
`sort_values("valor_venda", ascending=False)`. -/
def valDescLe (p q : String × Rat) : Bool := decide (q.2 ≤ p.2)

/-- Ascending comparison on the group key, for
`sort_values("ano_mes")`. -/
def keyAscLe (p q : String × Rat) : Bool := strLe p.1 q.1

/-- `df_mes` (lines 120-125): group by `ano_mes`, sum, sort ascending
by key. Every row has a (string) `ano_mes` key, so nothing is
dropped. -/
def df_mes (sub : List Sale) : List (String × Rat) :=
  sortBy keyAscLe (groupbySum (fun r => some r.ano_mes) sub)

/-- `df_tipo` (lines 147-151): group by `tipo_solucao`, sum, sort
descending by summed value. -/
def df_tipo (sub : List Sale) : List (String × Rat) :=
  sortBy valDescLe (groupbySum (fun r => r.tipo_solucao) sub)

/-- `df_cliente` (lines 173-179): group by `cliente`, sum, sort
descending by summed value, keep the first ten rows. -/
def df_cliente (sub : List Sale) : List (String × Rat) :=
  (sortBy valDescLe (groupbySum (fun r => r.cliente) sub)).take 10

/-- `df_vendedor` (lines 201-206): group by `vendedor`, sum, sort
descending by summed value. -/
def df_vendedor (sub : List Sale) : List (String × Rat) :=
  sortBy valDescLe (groupbySum (fun r => r.vendedor) sub)

/-- Sum of the summed values over all returned groups of a grouped
table. -/
def groupedTotal (t : List (String × Rat)) : Rat :=
  (t.map (fun p => p.2)).sum

/-- Ordering of the detail table (line 235): `data_venda` descending,
missing dates last. -/
def dateDescLe (a b : Sale) : Bool :=
  match a.data_venda, b.data_venda with
  | some x, some y => decide (y.toDays ≤ x.toDays)
  | some _, none => true
  | none, some _ => false
  | none, none => true

/-- The detail table (lines 224-237): the filtered subset sorted by
`data_venda` descending. -/
def df_detalhes (sub : List Sale) : List Sale := sortBy dateDescLe sub

/-- `sorted(df["ano"].dropna().unique())` (line 65): the option set and
default selection of the year filter. -/
def anos (df : List Sale) : List Int :=
  sortBy (fun a b => decide (a ≤ b)) (uniqueList (df.filterMap (fun r => r.ano)))

/-- `sorted(df["vendedor"].dropna().unique())` (line 70). -/
def vendedores (df : List Sale) : List String :=
  sortBy strLe (uniqueList (df.filterMap (fun r => r.vendedor)))

/-- `sorted(df["tipo_solucao"].dropna().unique())` (line 75). -/
def tipos (df : List Sale) : List String :=
  sortBy strLe (uniqueList (df.filterMap (fun r => r.tipo_solucao)))

/-- `sorted(df["cliente"].dropna().unique())` (line 80). -/
def clientes (df : List Sale) : List String :=
  sortBy strLe (uniqueList (df.filterMap (fun r => r.cliente)))

/-- The filtered subset under the default selections, where every
multiselect defaults to all distinct non-missing values of its
dimension (lines 65-91). -/
def defaultFiltered (df : List Sale) : List Sale :=
  df_filtrado df (anos df) (vendedores df) (tipos df) (clientes df)

/-- A dataframe object held in the store: either a plain frame of
sale rows, or a frame to which the `lead_time_dias` column has been
added in place (the column is a parallel list). -/
inductive Frame where
  | base (rows : List Sale)
  | withLead (rows : List Sale) (lead : List (Option Int))
deriving DecidableEq, Repr

/-- The heap of live dataframe objects; the canonical dataset lives at
address 0. -/
abbrev Store := List Frame

/-- Everything the app derives from the filtered subset during one
render. -/
structure RenderOutput where
  total : Rat
  qtd : Nat
  ticket : Rat
  ciclo : Option Rat
  mes : List (String × Rat)
  tipo : List (String × Rat)
  cliente : List (String × Rat)
  vendedor : List (String × Rat)
  detalhe : List Sale
deriving DecidableEq, Repr

/-- One full filter-and-aggregate render cycle (lines 86-237) with the
object store made explicit: `df[mask].copy()` allocates a fresh frame
at address 1, the KPIs are computed, the `lead_time_dias` column
assignment at line 102 mutates the frame at address 1 in place, and
the four grouped tables and the detail table are computed from the
copy. The canonical dataset stays at address 0. -/
def renderCycle (df : List Sale) (anoSel : List Int)
    (vendSel tipoSel cliSel : List String) : Store × RenderOutput :=
  let store0 : Store := [Frame.base df]
  let filtered := df_filtrado df anoSel vendSel tipoSel cliSel
  let store1 := store0 ++ [Frame.base filtered]
  let total := total_vendas filtered
  let qtd := qtd_vendas filtered
  let ticket := ticket_medio filtered
  let store2 := store1.set 1 (Frame.withLead filtered (filtered.map lead_time_dias))
  let ciclo := ciclo_medio filtered
  (store2,
   { total := total, qtd := qtd, ticket := ticket, ciclo := ciclo,
     mes := df_mes filtered, tipo := df_tipo filtered,
     cliente := df_cliente filtered, vendedor := df_vendedor filtered,
     detalhe := df_detalhes filtered })

/-- A complete nine-column workbook whose sale-date column holds one
string cell that does not parse as a date. -/
def c1df : Df :=
  [("Data da Venda", [Cell.str "soon"]),
   ("Data de Emissão da NF", [Cell.date { year := 2023, month := 1, day := 20 }]),
   ("Cliente", [Cell.str "A"]),
   ("Vendedor Responsável", [Cell.str "V"]),
   ("Tipo de Solução", [Cell.str "X"]),
   ("Descrição do Projeto", [Cell.str "projeto"]),
   ("Valor da Venda (R$)", [Cell.num 100]),
   ("OS.", [Cell.str "1"]),
   ("Proposta", [Cell.str "P1"])]

/-- A workbook whose date cells are parseable or empty but whose value
column holds a non-numeric string; witnesses tolerant numeric coercion
alongside strict date parsing. -/
def c1wdf : Df :=
  [("Data da Venda", [Cell.empty, Cell.date { year := 2023, month := 1, day := 15 }]),
   ("Data de Emissão da NF", [Cell.empty, Cell.empty]),
   ("Valor da Venda (R$)", [Cell.str "abc", Cell.num 100])]

/-- A workbook with eight of the nine expected source columns — the
customer column is absent — and one well-formed row. -/
def c2df : Df :=
  [("Data da Venda", [Cell.date { year := 2023, month := 1, day := 15 }]),
   ("Data de Emissão da NF", [Cell.date { year := 2023, month := 1, day := 20 }]),
   ("Vendedor Responsável", [Cell.str "V"]),
   ("Tipo de Solução", [Cell.str "X"]),
   ("Descrição do Projeto", [Cell.str "projeto"]),
   ("Valor da Venda (R$)", [Cell.num 100]),
   ("OS.", [Cell.str "1"]),
   ("Proposta", [Cell.str "P1"])]

/-- A workbook missing the invoice-date column. -/
def c2wdf : Df :=
  [("Data da Venda", [Cell.date { year := 2023, month := 1, day := 15 }]),
   ("Valor da Venda (R$)", [Cell.num 100])]

/-- A complete nine-column workbook with one row whose sale-date cell
is empty. -/
def c3df : Df :=
  [("Data da Venda", [Cell.empty]),
   ("Data de Emissão da NF", [Cell.empty]),
   ("Cliente", [Cell.str "A"]),
   ("Vendedor Responsável", [Cell.str "V"]),
   ("Tipo de Solução", [Cell.str "X"]),
   ("Descrição do Projeto", [Cell.str "projeto"]),
   ("Valor da Venda (R$)", [Cell.num 50]),
   ("OS.", [Cell.str "1"]),
   ("Proposta", [Cell.str "P1"])]

/-- A minimal workbook with one dated row and one undated row. -/
def c3wdf : Df :=
  [("Data da Venda", [Cell.date { year := 2023, month := 1, day := 15 }, Cell.empty]),
   ("Data de Emissão da NF", [Cell.empty, Cell.empty]),
   ("Valor da Venda (R$)", [Cell.num 100, Cell.empty])]

/-- The dataframe `load_data` produces on `c3wdf`. -/
def c3wout : Df :=
  [("data_venda", [Cell.date { year := 2023, month := 1, day := 15 }, Cell.empty]),
   ("data_nf", [Cell.empty, Cell.empty]),
   ("valor_venda", [Cell.num 100, Cell.empty]),
   ("ano", [Cell.num 2023, Cell.empty]),
   ("mes", [Cell.num 1, Cell.empty]),
   ("ano_mes", [Cell.str "2023-01", Cell.str "NaT"])]

/-- A sale row with every dimension present and derived fields
consistent with its sale date. -/
def wRow : Sale :=
  { data_venda := some { year := 2023, month := 1, day := 15 },
    data_nf := some { year := 2023, month := 2, day := 1 },
    cliente := some "A", vendedor := some "V", tipo_solucao := some "X",
    descricao_projeto := some "p", valor_venda := some 100, os := some "1",
    proposta := some "P1", ano := some 2023, mes := some 1, ano_mes := "2023-01" }

/-- A sale row whose solution-type dimension is missing. -/
def wRowMissingTipo : Sale := { wRow with tipo_solucao := none }

/-- A sale row with a missing sale date and the derived fields the
loader produces for it. -/
def wRowNoDims : Sale :=
  { wRow with data_venda := none, ano := none, mes := none, ano_mes := "NaT" }

/-- Boolean success test for `Except`. -/
def exOk {ε α : Type} : Except ε α → Bool
  | .ok _ => true
  | .error _ => false

/-- Decidable equality of `Except` results. -/
instance exceptDecEq {ε α : Type} [DecidableEq ε] [DecidableEq α] :
    DecidableEq (Except ε α) :=
  fun x y =>
    match x, y with
    | .error a, .error b =>
      if h : a = b then isTrue (by rw [h]) else isFalse (fun hh => h (Except.error.inj hh))
    | .error _, .ok _ => isFalse (fun hh => Except.noConfusion hh)
    | .ok _, .error _ => isFalse (fun hh => Except.noConfusion hh)
    | .ok a, .ok b =>
      if h : a = b then isTrue (by rw [h]) else isFalse (fun hh => h (Except.ok.inj hh))

theorem getCol_setCol_self (df : Df) (n : String) (cells : List Cell) :
    getCol (setCol df n cells) n = some cells := by
  induction df with
  | nil => simp [setCol, getCol]
  | cons p rest ih =>
    obtain ⟨m, cs⟩ := p
    by_cases h : (m == n) = true
    · simp [setCol, getCol, h]
    · simp [setCol, getCol, h, ih]

theorem getCol_setCol_ne (df : Df) (n m : String) (cells : List Cell) (h : n ≠ m) :
    getCol (setCol df n cells) m = getCol df m := by
  induction df with
  | nil => simp [setCol, getCol, h]
  | cons p rest ih =>
    obtain ⟨k, cs⟩ := p
    by_cases hk : (k == n) = true
    · have hkn : k = n := by simpa using hk
      subst hkn
      simp [setCol, getCol, h]
    · simp [setCol, getCol, hk, ih]

theorem perm_insertBy {α : Type} (le : α → α → Bool) (a : α) (l : List α) :
    List.Perm (insertBy le a l) (a :: l) := by
  induction l with
  | nil => simp [insertBy]
  | cons b l ih =>
    by_cases h : le a b = true
    · simp [insertBy, h]
    · rw [insertBy, if_neg h]
      refine List.Perm.trans (List.Perm.cons b ih) ?_
      exact List.Perm.swap a b l

theorem perm_sortBy {α : Type} (le : α → α → Bool) (l : List α) :
    List.Perm (sortBy le l) l := by
  induction l with
  | nil => simp [sortBy]
  | cons a l ih =>
    exact List.Perm.trans (perm_insertBy le a (sortBy le l)) (List.Perm.cons a ih)

theorem mem_uniqAux {α : Type} [DecidableEq α] (x : α) :
    ∀ (l seen : List α), x ∈ uniqAux seen l ↔ (x ∈ l ∧ x ∉ seen) := by
  intro l
  induction l with
  | nil => intro seen; simp [uniqAux]
  | cons a l ih =>
    intro seen
    by_cases h : a ∈ seen
    · rw [uniqAux, if_pos h, ih]
      simp only [List.mem_cons]
      constructor
      · rintro ⟨hx, hns⟩
        exact ⟨Or.inr hx, hns⟩
      · rintro ⟨hx | hx, hns⟩
        · exact absurd (hx ▸ h) hns
        · exact ⟨hx, hns⟩
    · rw [uniqAux, if_neg h]
      simp only [List.mem_cons, ih, not_or]
      constructor
      · rintro (rfl | ⟨hx, hxa, hns⟩)
        · exact ⟨Or.inl rfl, h⟩
        · exact ⟨Or.inr hx, hns⟩
      · rintro ⟨rfl | hx, hns⟩
        · exact Or.inl rfl
        · by_cases hxa : x = a
          · exact Or.inl hxa
          · exact Or.inr ⟨hx, hxa, hns⟩

theorem nodup_uniqAux {α : Type} [DecidableEq α] :
    ∀ (l seen : List α), (uniqAux seen l).Nodup := by
  intro l
  induction l with
  | nil => intro seen; simp [uniqAux]
  | cons a l ih =>
    intro seen
    by_cases h : a ∈ seen
    · rw [uniqAux, if_pos h]
      exact ih seen
    · rw [uniqAux, if_neg h]
      refine List.nodup_cons.mpr ⟨?_, ih (a :: seen)⟩
      intro ha
      exact ((mem_uniqAux a l (a :: seen)).mp ha).2 (List.mem_cons_self a seen)

theorem mem_uniqueList {α : Type} [DecidableEq α] (x : α) (l : List α) :
    x ∈ uniqueList l ↔ x ∈ l := by
  rw [uniqueList, mem_uniqAux]
  simp

theorem nodup_uniqueList {α : Type} [DecidableEq α] (l : List α) :
    (uniqueList l).Nodup := nodup_uniqAux l []

theorem optIsin_iff {α : Type} [DecidableEq α] (v : Option α) (sel : List α) :
    optIsin v sel = true ↔ ∃ x, v = some x ∧ x ∈ sel := by
  cases v with
  | none => simp [optIsin]
  | some x => simp [optIsin, List.elem_iff]

theorem total_vendas_cons (r : Sale) (l : List Sale) :
    total_vendas (r :: l) = (r.valor_venda).getD 0 + total_vendas l := by
  simp [total_vendas]

theorem mapCongrOn {α β : Type} :
    ∀ (l : List α) (f g : α → β), (∀ a ∈ l, f a = g a) → l.map f = l.map g := by
  intro l
  induction l with
  | nil => intro f g _; rfl
  | cons a l ih =>
    intro f g h
    rw [List.map_cons, List.map_cons, h a (List.mem_cons_self a l),
      ih f g (fun x hx => h x (List.mem_cons_of_mem a hx))]

theorem sum_map_ite (ks : List String) (k0 : String) (f : String → Rat) (a : Rat) :
    ks.Nodup → k0 ∈ ks →
    (ks.map (fun k => if k0 == k then a + f k else f k)).sum = a + (ks.map f).sum := by
  induction ks with
  | nil => intro _ hk; cases hk
  | cons k ks ih =>
    intro hnd hk
    rw [List.nodup_cons] at hnd
    rcases List.mem_cons.mp hk with rfl | hk0
    · have hrest : ∀ x ∈ ks, (if k0 == x then a + f x else f x) = f x := by
        intro x hx
        have hne : k0 ≠ x := fun h => hnd.1 (h ▸ hx)
        simp [hne]
      rw [List.map_cons, List.sum_cons, if_pos (by simp), mapCongrOn ks _ f hrest,
        List.map_cons, List.sum_cons, add_assoc]
    · have hne : k0 ≠ k := by
        intro h
        subst h
        exact hnd.1 hk0
      rw [List.map_cons, List.sum_cons, if_neg (by simp [hne]),
        List.map_cons, List.sum_cons, ih hnd.2 hk0]
      ring

theorem sum_filter_partition (key : Sale → Option String) :
    ∀ (sub : List Sale) (ks : List String), ks.Nodup →
      (∀ r ∈ sub, ∃ k ∈ ks, key r = some k) →
      (ks.map (fun k => total_vendas (sub.filter (fun r => key r == some k)))).sum
        = total_vendas sub := by
  intro sub
  induction sub with
  | nil =>
    intro ks _ _
    have hz : ∀ k ∈ ks, total_vendas (List.filter (fun r => key r == some k) []) = (0 : Rat) := by
      intro k _
      rfl
    rw [mapCongrOn ks _ (fun _ => (0 : Rat)) hz]
    simp [total_vendas]
  | cons r sub ih =>
    intro ks hnd hcov
    obtain ⟨k0, hk0, hkey⟩ := hcov r (List.mem_cons_self r sub)
    have hpt : ∀ k ∈ ks,
        total_vendas (List.filter (fun x => key x == some k) (r :: sub))
          = if k0 == k then (r.valor_venda).getD 0
              + total_vendas (List.filter (fun x => key x == some k) sub)
            else total_vendas (List.filter (fun x => key x == some k) sub) := by
      intro k _
      by_cases h : k0 = k
      · subst h
        rw [List.filter_cons, if_pos (by simp [hkey]), total_vendas_cons, if_pos (by simp)]
      · rw [List.filter_cons, if_neg (by simp [hkey, h]), if_neg (by simp [h])]
    rw [mapCongrOn ks _ _ hpt, sum_map_ite ks k0 _ _ hnd hk0, total_vendas_cons,
      ih ks hnd (fun x hx => hcov x (List.mem_cons_of_mem r hx))]

theorem groupedTotal_sortBy (le : String × Rat → String × Rat → Bool)
    (t : List (String × Rat)) :
    groupedTotal (sortBy le t) = groupedTotal t :=
  List.Perm.sum_eq ((perm_sortBy le t).map (fun p => p.2))

theorem groupedTotal_groupbySum (key : Sale → Option String) (sub : List Sale)
    (hpres : ∀ r ∈ sub, (key r).isSome = true) :
    groupedTotal (groupbySum key sub) = total_vendas sub := by
  unfold groupedTotal groupbySum
  rw [List.map_map]
  have hnd : (sortBy strLe (uniqueList (sub.filterMap key))).Nodup :=
    (List.Perm.nodup_iff (perm_sortBy strLe _)).mpr (nodup_uniqueList _)
  have hcov : ∀ r ∈ sub, ∃ k ∈ sortBy strLe (uniqueList (sub.filterMap key)), key r = some k := by
    intro r hr
    obtain ⟨k, hk⟩ := Option.isSome_iff_exists.mp (hpres r hr)
    refine ⟨k, ?_, hk⟩
    refine (List.Perm.mem_iff (perm_sortBy strLe _)).mpr ?_
    exact (mem_uniqueList k _).mpr (List.mem_filterMap.mpr ⟨r, hr, hk⟩)
  exact sum_filter_partition key sub _ hnd hcov

theorem to_datetime_ok (l : List Cell) (h : ∀ c ∈ l, exOk (toDatetimeCell c) = true) :
    ∃ ds, to_datetime l = .ok ds := by
  induction l with
  | nil => exact ⟨[], rfl⟩
  | cons c l ih =>
    obtain ⟨ds, hds⟩ := ih (fun x hx => h x (List.mem_cons_of_mem c hx))
    have hc := h c (List.mem_cons_self c l)
    cases hcell : toDatetimeCell c with
    | error s =>
      rw [hcell] at hc
      exact absurd hc (by simp [exOk])
    | ok d =>
      refine ⟨d :: ds, ?_⟩
      simp [to_datetime, hcell, hds]

theorem optIsin_nil {α : Type} [DecidableEq α] (v : Option α) : optIsin v [] = false := by
  cases v <;> simp [optIsin]

theorem optIsin_mono {α : Type} [DecidableEq α] (v : Option α) (s1 s2 : List α)
    (hs : s1 ⊆ s2) (h : optIsin v s1 = true) : optIsin v s2 = true := by
  obtain ⟨x, hv, hx⟩ := (optIsin_iff v s1).mp h
  exact (optIsin_iff v s2).mpr ⟨x, hv, hs hx⟩

theorem filter_length_mono {α : Type} (p q : α → Bool) (h : ∀ r, p r = true → q r = true) :
    ∀ l : List α, (l.filter p).length ≤ (l.filter q).length := by
  intro l
  induction l with
  | nil => simp
  | cons r l ih =>
    rw [List.filter_cons, List.filter_cons]
    by_cases hp : p r = true
    · rw [if_pos hp, if_pos (h r hp)]
      simpa using ih
    · rw [if_neg hp]
      by_cases hq : q r = true
      · rw [if_pos hq]
        exact Nat.le_trans ih (by simp)
      · rw [if_neg hq]
        exact ih

/-- Claim C1, counterexample: on a workbook with the full expected
schema whose sale-date column contains the unparseable string
`"soon"`, `load_data` does not coerce the value to missing — it aborts
the whole load with a date-parse error, because `pd.to_datetime` is
called with its default `errors="raise"` (app.py line 30). This
refutes the claim that the load never raises on an unparseable date
cell. -/
theorem C1_counterexample_strict_date :
    load_data c1df = .error (LoadError.dateParseError "data_venda" "soon") := by decide

/-- Claim C1, amended: date parsing is strict while numeric coercion
is tolerant. If the two date columns are present and every one of
their cells converts without error (dates, raw numbers and empty
cells always do; strings must parse as dates), and the value column is
present, then the load completes — with no condition at all on the
value cells, whose unparseable entries are coerced to missing by
`errors="coerce"`. -/
theorem C1_amended_load (df : Df) (a b : List Cell)
    (ha : getCol (renameDf df) "data_venda" = some a)
    (hb : getCol (renameDf df) "data_nf" = some b)
    (hv : (getCol (renameDf df) "valor_venda").isSome = true)
    (hpa : ∀ c ∈ a, exOk (toDatetimeCell c) = true)
    (hpb : ∀ c ∈ b, exOk (toDatetimeCell c) = true) :
    exOk (load_data df) = true := by
  obtain ⟨dv, hdv⟩ := to_datetime_ok a hpa
  obtain ⟨nf, hnf⟩ := to_datetime_ok b hpb
  have hb2 : getCol (setCol (renameDf df) "data_venda" (dv.map dateCell)) "data_nf"
      = some b := by
    rw [getCol_setCol_ne _ "data_venda" "data_nf" _ (by decide)]
    exact hb
  have hv2 : (getCol (setCol (setCol (renameDf df) "data_venda" (dv.map dateCell))
      "data_nf" (nf.map dateCell)) "valor_venda").isSome = true := by
    rw [getCol_setCol_ne _ "data_nf" "valor_venda" _ (by decide),
      getCol_setCol_ne _ "data_venda" "valor_venda" _ (by decide)]
    exact hv
  obtain ⟨vv, hvv⟩ := Option.isSome_iff_exists.mp hv2
  simp only [load_data, ha, hdv, hb2, hnf, hvv]
  rfl

/-- Claim C1, witness for the amended theorem: a workbook with an
empty date cell and a non-numeric value cell loads successfully. -/
theorem C1_witness_tolerant : exOk (load_data c1wdf) = true :=
  C1_amended_load c1wdf
    [Cell.empty, Cell.date { year := 2023, month := 1, day := 15 }]
    [Cell.empty, Cell.empty]
    rfl rfl rfl (by decide) (by decide)

/-- Claim C2, counterexample: a workbook lacking the customer source
column ("Cliente") loads successfully — `DataFrame.rename` does not
validate, and `load_data` only touches the sale-date, invoice-date and
value columns — refuting the claim that the absence of any of the
nine expected source columns makes the load fail. -/
theorem C2_counterexample_load_succeeds : exOk (load_data c2df) = true := by decide

/-- Claim C2, amended: the load fails (with no partial result) when
one of the three columns `load_data` actually touches — sale date,
invoice date, sale value — is absent after rename; the absence of any
of the other six columns is not detected at load time and surfaces
only later in the application. -/
theorem C2_amended_missing_column (df : Df)
    (h : getCol (renameDf df) "data_venda" = none ∨
      getCol (renameDf df) "data_nf" = none ∨
      getCol (renameDf df) "valor_venda" = none) :
    ∃ e, load_data df = .error e := by
  rcases h with h | h | h
  · exact ⟨.keyError "data_venda", by simp only [load_data, h]⟩
  · cases hdv : getCol (renameDf df) "data_venda" with
    | none => exact ⟨.keyError "data_venda", by simp only [load_data, hdv]⟩
    | some a =>
      cases htd : to_datetime a with
      | error s =>
        exact ⟨.dateParseError "data_venda" s, by simp only [load_data, hdv, htd]⟩
      | ok dv =>
        have h2 : getCol (setCol (renameDf df) "data_venda" (dv.map dateCell)) "data_nf"
            = none := by
          rw [getCol_setCol_ne _ "data_venda" "data_nf" _ (by decide)]
          exact h
        exact ⟨.keyError "data_nf", by simp only [load_data, hdv, htd, h2]⟩
  · cases hdv : getCol (renameDf df) "data_venda" with
    | none => exact ⟨.keyError "data_venda", by simp only [load_data, hdv]⟩
    | some a =>
      cases htd : to_datetime a with
      | error s =>
        exact ⟨.dateParseError "data_venda" s, by simp only [load_data, hdv, htd]⟩
      | ok dv =>
        cases hnf : getCol (setCol (renameDf df) "data_venda" (dv.map dateCell)) "data_nf" with
        | none => exact ⟨.keyError "data_nf", by simp only [load_data, hdv, htd, hnf]⟩
        | some b =>
          cases htn : to_datetime b with
          | error s =>
            exact ⟨.dateParseError "data_nf" s, by simp only [load_data, hdv, htd, hnf, htn]⟩
          | ok nf =>
            have h3 : getCol (setCol (setCol (renameDf df) "data_venda" (dv.map dateCell))
                "data_nf" (nf.map dateCell)) "valor_venda" = none := by
              rw [getCol_setCol_ne _ "data_nf" "valor_venda" _ (by decide),
                getCol_setCol_ne _ "data_venda" "valor_venda" _ (by decide)]
              exact h
            exact ⟨.keyError "valor_venda", by simp only [load_data, hdv, htd, hnf, htn, h3]⟩

/-- Claim C2, witness for the amended theorem: a workbook missing the
invoice-date column fails to load. -/
theorem C2_witness_missing_invoice : ∃ e, load_data c2wdf = .error e :=
  C2_amended_missing_column c2wdf (Or.inr (Or.inl rfl))

/-- Claim C3, counterexample: loading a workbook with one row whose
sale-date cell is empty yields missing `ano` and `mes`, but `ano_mes`
is the non-missing placeholder string `"NaT"` (because
`.dt.to_period("M").astype(str)` stringifies the missing date) —
refuting the claim that all three derived fields are missing. -/
theorem C3_counterexample_nat_string :
    (load_data c3df).map (fun o => getCol o "data_venda") = .ok (some [Cell.empty]) ∧
    (load_data c3df).map (fun o => getCol o "ano") = .ok (some [Cell.empty]) ∧
    (load_data c3df).map (fun o => getCol o "mes") = .ok (some [Cell.empty]) ∧
    (load_data c3df).map (fun o => getCol o "ano_mes") = .ok (some [Cell.str "NaT"]) ∧
    Cell.str "NaT" ≠ Cell.empty := by
  refine ⟨by decide, by decide, by decide, by decide, by decide⟩

/-- Claim C3, amended: on every successful load the three derived
columns are element-wise images of the parsed sale-date column — for a
present date, `ano` and `mes` are its year and month and `ano_mes` is
the zero-padded `YYYY-MM` string; for a missing date, `ano` and `mes`
are missing while `ano_mes` is the literal string `"NaT"`. -/
theorem C3_amended_derived (df : Df) (out : Df) (h : load_data df = .ok out) :
    ∃ dv : List (Option Date),
      getCol out "data_venda" = some (dv.map dateCell) ∧
      getCol out "ano" = some (dv.map (fun o => intCell (dtYear o))) ∧
      getCol out "mes" = some (dv.map (fun o => natCell (dtMonth o))) ∧
      getCol out "ano_mes" = some (dv.map (fun o => Cell.str (periodMStr o))) ∧
      (∀ d : Date, intCell (dtYear (some d)) = Cell.num ((d.year : Rat))
        ∧ natCell (dtMonth (some d)) = Cell.num ((d.month : Rat))
        ∧ periodMStr (some d) = periodFmt d.year d.month) ∧
      intCell (dtYear none) = Cell.empty ∧ natCell (dtMonth none) = Cell.empty
        ∧ periodMStr none = "NaT" := by
  simp only [load_data] at h
  split at h
  next => exact Except.noConfusion h
  next a hdv =>
    split at h
    next s htd => exact Except.noConfusion h
    next dv htd =>
      split at h
      next => exact Except.noConfusion h
      next b hnf =>
        split at h
        next s htn => exact Except.noConfusion h
        next nf htn =>
          split at h
          next => exact Except.noConfusion h
          next vvC hvv =>
            injection h with h
            subst h
            refine ⟨dv, ?_, ?_, ?_, ?_, fun d => ⟨rfl, rfl, rfl⟩, rfl, rfl, rfl⟩
            · rw [getCol_setCol_ne _ "ano_mes" "data_venda" _ (by decide),
                getCol_setCol_ne _ "mes" "data_venda" _ (by decide),
                getCol_setCol_ne _ "ano" "data_venda" _ (by decide),
                getCol_setCol_ne _ "valor_venda" "data_venda" _ (by decide),
                getCol_setCol_ne _ "data_nf" "data_venda" _ (by decide),
                getCol_setCol_self]
            · rw [getCol_setCol_ne _ "ano_mes" "ano" _ (by decide),
                getCol_setCol_ne _ "mes" "ano" _ (by decide),
                getCol_setCol_self]
            · rw [getCol_setCol_ne _ "ano_mes" "mes" _ (by decide),
                getCol_setCol_self]
            · rw [getCol_setCol_self]

/-- Claim C3, witness for the amended theorem, at a workbook with one
dated and one undated row. -/
theorem C3_witness_derived :
    ∃ dv : List (Option Date),
      getCol c3wout "data_venda" = some (dv.map dateCell) ∧
      getCol c3wout "ano" = some (dv.map (fun o => intCell (dtYear o))) ∧
      getCol c3wout "mes" = some (dv.map (fun o => natCell (dtMonth o))) ∧
      getCol c3wout "ano_mes" = some (dv.map (fun o => Cell.str (periodMStr o))) ∧
      (∀ d : Date, intCell (dtYear (some d)) = Cell.num ((d.year : Rat))
        ∧ natCell (dtMonth (some d)) = Cell.num ((d.month : Rat))
        ∧ periodMStr (some d) = periodFmt d.year d.month) ∧
      intCell (dtYear none) = Cell.empty ∧ natCell (dtMonth none) = Cell.empty
        ∧ periodMStr none = "NaT" :=
  C3_amended_derived c3wdf c3wout (by decide)

/-- Claim C4 (confirmed): a row is in the filtered subset iff it is in
the dataset and each of its four dimension values is present and a
member of that dimension's selection list; an empty selection for any
dimension empties the result, and a row with a missing value in any
dimension never matches. -/
theorem C4_filter_semantics (df : List Sale) (aSel : List Int)
    (vSel tSel cSel : List String) (r : Sale) :
    (r ∈ df_filtrado df aSel vSel tSel cSel ↔
      r ∈ df ∧ (∃ y, r.ano = some y ∧ y ∈ aSel) ∧ (∃ s, r.vendedor = some s ∧ s ∈ vSel)
        ∧ (∃ s, r.tipo_solucao = some s ∧ s ∈ tSel)
        ∧ (∃ s, r.cliente = some s ∧ s ∈ cSel)) ∧
    (aSel = [] → df_filtrado df aSel vSel tSel cSel = []) ∧
    (vSel = [] → df_filtrado df aSel vSel tSel cSel = []) ∧
    (tSel = [] → df_filtrado df aSel vSel tSel cSel = []) ∧
    (cSel = [] → df_filtrado df aSel vSel tSel cSel = []) ∧
    ((r.ano = none ∨ r.vendedor = none ∨ r.tipo_solucao = none ∨ r.cliente = none) →
      r ∉ df_filtrado df aSel vSel tSel cSel) := by
  have hmem : ∀ x : Sale, x ∈ df_filtrado df aSel vSel tSel cSel ↔
      x ∈ df ∧ optIsin x.ano aSel = true ∧ optIsin x.vendedor vSel = true
        ∧ optIsin x.tipo_solucao tSel = true ∧ optIsin x.cliente cSel = true := by
    intro x
    rw [df_filtrado, List.mem_filter]
    simp [Bool.and_eq_true, and_assoc]
  refine ⟨?_, ?_, ?_, ?_, ?_, ?_⟩
  · rw [hmem r]
    simp only [optIsin_iff]
  · intro h
    subst h
    exact List.filter_eq_nil_iff.mpr (fun x _ => by simp [optIsin_nil])
  · intro h
    subst h
    exact List.filter_eq_nil_iff.mpr (fun x _ => by simp [optIsin_nil])
  · intro h
    subst h
    exact List.filter_eq_nil_iff.mpr (fun x _ => by simp [optIsin_nil])
  · intro h
    subst h
    exact List.filter_eq_nil_iff.mpr (fun x _ => by simp [optIsin_nil])
  · intro h hin
    rcases (hmem r).mp hin with ⟨_, h1, h2, h3, h4⟩
    rcases h with h | h | h | h
    · rw [h] at h1
      exact absurd h1 (by simp [optIsin])
    · rw [h] at h2
      exact absurd h2 (by simp [optIsin])
    · rw [h] at h3
      exact absurd h3 (by simp [optIsin])
    · rw [h] at h4
      exact absurd h4 (by simp [optIsin])

/-- Claim C4, witness: a fully present row matches selections that
contain its values. -/
theorem C4_witness_member :
    wRow ∈ df_filtrado [wRow] [2023] ["V"] ["X"] ["A"] :=
  ((C4_filter_semantics [wRow] [2023] ["V"] ["X"] ["A"] wRow).1).mpr
    ⟨List.mem_cons_self wRow [], ⟨2023, rfl, by decide⟩, ⟨"V", rfl, by decide⟩,
     ⟨"X", rfl, by decide⟩, ⟨"A", rfl, by decide⟩⟩

/-- Claim C5 (confirmed): on an empty filtered subset the average
ticket is the explicit sentinel `0` (the guarded division at line 99)
and the average cycle time is the explicit no-data sentinel (pandas
`NaN`, modelled as `none`); both computations are total, so no
division fault can occur. -/
theorem C5_empty_sentinels (sub : List Sale) (h : qtd_vendas sub = 0) :
    ticket_medio sub = 0 ∧ ciclo_medio sub = none := by
  have hnil : sub = [] := List.length_eq_zero.mp h
  subst hnil
  exact ⟨rfl, rfl⟩

/-- Claim C5, witness at the empty subset. -/
theorem C5_witness_empty : ticket_medio [] = 0 ∧ ciclo_medio [] = none :=
  C5_empty_sentinels [] rfl

/-- Claim C7, counterexample: a one-row subset whose solution type is
missing but whose sale value is `100` has grouped total `0` — pandas
`groupby` drops rows with a missing group key (`dropna=True` default),
so the row's revenue is silently absent from the grouped totals —
refuting the claim that conservation holds for rows with a missing
dimension value. -/
theorem C7_counterexample_dropped_revenue :
    groupedTotal (df_tipo [wRowMissingTipo]) = 0 ∧
    total_vendas [wRowMissingTipo] = 100 ∧ (0 : Rat) ≠ 100 := by
  refine ⟨by decide, ?_, by norm_num⟩
  simp [total_vendas, wRowMissingTipo, wRow]

/-- Claim C7, amended: aggregate conservation holds for the
`ano_mes` grouping unconditionally (its key is a total string column,
missing sale dates becoming the `"NaT"` key), and for the
`tipo_solucao`, `vendedor` and `cliente` groupings whenever every row
has a present value in that dimension — for `cliente` additionally
requiring at most ten distinct customers, since that table is
truncated to its first ten rows. Rows with a missing dimension value
are dropped by `groupby` and their revenue is absent from the grouped
totals. -/
theorem C7_amended_conservation :
    (∀ sub : List Sale, groupedTotal (df_mes sub) = total_vendas sub) ∧
    (∀ sub : List Sale, (∀ r ∈ sub, (r.tipo_solucao).isSome = true) →
      groupedTotal (df_tipo sub) = total_vendas sub) ∧
    (∀ sub : List Sale, (∀ r ∈ sub, (r.vendedor).isSome = true) →
      groupedTotal (df_vendedor sub) = total_vendas sub) ∧
    (∀ sub : List Sale, (∀ r ∈ sub, (r.cliente).isSome = true) →
      (uniqueList (sub.filterMap (fun r => r.cliente))).length ≤ 10 →
      groupedTotal (df_cliente sub) = total_vendas sub) := by
  refine ⟨?_, ?_, ?_, ?_⟩
  · intro sub
    rw [df_mes, groupedTotal_sortBy, groupedTotal_groupbySum]
    intro r _
    rfl
  · intro sub h
    rw [df_tipo, groupedTotal_sortBy, groupedTotal_groupbySum _ _ h]
  · intro sub h
    rw [df_vendedor, groupedTotal_sortBy, groupedTotal_groupbySum _ _ h]
  · intro sub h hlen
    rw [df_cliente]
    have hlen2 : (sortBy valDescLe (groupbySum (fun r => r.cliente) sub)).length ≤ 10 := by
      rw [List.Perm.length_eq (perm_sortBy valDescLe _), groupbySum, List.length_map,
        List.Perm.length_eq (perm_sortBy strLe _)]
      exact hlen
    rw [List.take_of_length_le hlen2, groupedTotal_sortBy, groupedTotal_groupbySum _ _ h]

/-- Claim C7, witness: conservation for the solution-type grouping on
a one-row subset with a present solution type. -/
theorem C7_witness_conserved :
    groupedTotal (df_tipo [wRow]) = total_vendas [wRow] :=
  C7_amended_conservation.2.1 [wRow] (by decide)

/-- Claim C8 (confirmed): filtering is monotone in the selection
sets — dimension-wise narrower selections can only shrink the filtered
subset. -/
theorem C8_filter_monotone (df : List Sale) (a1 a2 : List Int)
    (v1 v2 t1 t2 c1 c2 : List String)
    (ha : a1 ⊆ a2) (hv : v1 ⊆ v2) (ht : t1 ⊆ t2) (hc : c1 ⊆ c2) :
    (df_filtrado df a1 v1 t1 c1).length ≤ (df_filtrado df a2 v2 t2 c2).length := by
  unfold df_filtrado
  apply filter_length_mono
  intro r h
  rw [Bool.and_eq_true, Bool.and_eq_true, Bool.and_eq_true] at h ⊢
  exact ⟨⟨⟨optIsin_mono _ _ _ ha h.1.1.1, optIsin_mono _ _ _ hv h.1.1.2⟩,
    optIsin_mono _ _ _ ht h.1.2⟩, optIsin_mono _ _ _ hc h.2⟩

/-- Claim C8, witness: empty selections versus selections containing
the row's values. -/
theorem C8_witness_monotone :
    (df_filtrado [wRow] [] [] [] []).length
      ≤ (df_filtrado [wRow] [2023] ["V"] ["X"] ["A"]).length :=
  C8_filter_monotone [wRow] [] [2023] [] ["V"] [] ["X"] [] ["A"]
    (List.nil_subset _) (List.nil_subset _) (List.nil_subset _) (List.nil_subset _)

/-- Claim C9 (confirmed): one full filter-and-aggregate render cycle
never mutates the canonical dataset — the boolean filter plus
`.copy()` allocates a fresh frame, and the in-place `lead_time_dias`
column assignment hits only that copy, so the frame at address 0 still
holds exactly the loaded rows afterwards. -/
theorem C9_no_mutation (df : List Sale) (aSel : List Int)
    (vSel tSel cSel : List String) :
    (renderCycle df aSel vSel tSel cSel).1.get? 0 = some (Frame.base df) := rfl

/-- Claim C9, witness at a concrete dataset and selections. -/
theorem C9_witness_no_mutation :
    (renderCycle [wRow] [2023] ["V"] ["X"] ["A"]).1.get? 0 = some (Frame.base [wRow]) :=
  C9_no_mutation [wRow] [2023] ["V"] ["X"] ["A"]

/-- Claim C10 (confirmed): under the default selections — each built
from the sorted distinct non-missing values of its dimension — any row
with a missing value in one of the four filter dimensions is excluded
from the filtered subset (and hence from every metric, grouped table
and the detail table, all of which are functions of that subset
alone); in particular, on a dataset whose `ano` column is derived from
`data_venda`, every row with a missing sale date is excluded. -/
theorem C10_default_excludes_missing (df : List Sale) (r : Sale) :
    ((r.ano = none ∨ r.vendedor = none ∨ r.tipo_solucao = none ∨ r.cliente = none) →
      r ∉ defaultFiltered df) ∧
    ((∀ s ∈ df, s.ano = Option.map Date.year s.data_venda) → r.data_venda = none →
      r ∉ defaultFiltered df) := by
  have hbase : ∀ x : Sale, x ∈ defaultFiltered df →
      optIsin x.ano (anos df) = true ∧ optIsin x.vendedor (vendedores df) = true
        ∧ optIsin x.tipo_solucao (tipos df) = true
        ∧ optIsin x.cliente (clientes df) = true := by
    intro x hx
    rw [defaultFiltered, df_filtrado, List.mem_filter] at hx
    have := hx.2
    rw [Bool.and_eq_true, Bool.and_eq_true, Bool.and_eq_true] at this
    exact ⟨this.1.1.1, this.1.1.2, this.1.2, this.2⟩
  constructor
  · intro h hmem
    rcases hbase r hmem with ⟨h1, h2, h3, h4⟩
    rcases h with h | h | h | h
    · rw [h] at h1
      exact absurd h1 (by simp [optIsin])
    · rw [h] at h2
      exact absurd h2 (by simp [optIsin])
    · rw [h] at h3
      exact absurd h3 (by simp [optIsin])
    · rw [h] at h4
      exact absurd h4 (by simp [optIsin])
  · intro hinv hdv hmem
    have hin : r ∈ df := by
      rw [defaultFiltered, df_filtrado, List.mem_filter] at hmem
      exact hmem.1
    have hano : r.ano = none := by
      rw [hinv r hin, hdv]
      rfl
    rcases hbase r hmem with ⟨h1, _, _, _⟩
    rw [hano] at h1
    exact absurd h1 (by simp [optIsin])

/-- Claim C10, witness: a row with a missing sale date (hence missing
derived year) is excluded under default selections. -/
theorem C10_witness_excluded :
    wRowNoDims ∉ defaultFiltered [wRowNoDims] :=
  (C10_default_excludes_missing [wRowNoDims] wRowNoDims).1 (Or.inl rfl)
